import Mathlib

/-
Verification of the ingestion-and-validation pipeline of the
temperature-sensor repository: the outlier filter
(src/temperature/database.py, is_valid_reading), the persistence path
(save_temperature), the ingestion callback and listen loop
(src/temperature/app.py on_message, src/temperature/redis_subscriber.py
RedisSubscriber), and the thread-safe settings store
(src/temperature/models.py, SettingsStore).

Numbers are modelled as rationals.  Python float literals -999.0, 0.25,
10.0 become the rationals -999, 1/4, 10.  Python None for an optional
float parameter becomes `Option`.
-/

namespace TemperatureSensor

/-- One row of the temperature_records table (database.py lines 32-39):
the two sensor values of one stored reading (timestamp and id are
irrelevant to the claims; the store is kept as a list with the newest
record first, matching the order_by timestamp desc queries). -/
structure TemperatureRecord where
  avg_temp1 : ℚ
  avg_temp2 : ℚ
deriving DecidableEq

/-- Python exceptions that the modelled code can raise. -/
inductive PyError where
  | nameError
  | typeError
deriving DecidableEq

/-- Module-level names bound in database.py: the imports of lines 1-8 and
the module-level assignments and function definitions.  Note line 8
imports only get_logger, log_database_operation and log_performance from
.logging_config; log_temperature_reading is not among them, is not
defined in database.py, and is no Python builtin. -/
def database_module_scope : List String :=
  ["json", "datetime", "timedelta", "pytz", "create_engine", "Column",
   "Float", "DateTime", "Integer", "String", "Text", "declarative_base",
   "sessionmaker", "Optional", "os",
   "get_logger", "log_database_operation", "log_performance",
   "BERLIN_TZ", "logger", "db_path", "DATABASE_URL", "engine",
   "SessionLocal", "Base", "TemperatureRecord", "ErrorLog",
   "init_db", "get_db", "is_valid_reading", "save_temperature",
   "get_latest_temperature", "get_temperature_history", "clear_database",
   "save_error_log", "get_error_logs", "clear_error_logs"]

/-- The call log_temperature_reading(...) on database.py line 179: Python
resolves the name in the module scope (then builtins); an unbound name
raises NameError. -/
def log_temperature_reading_call : Except PyError Unit :=
  if "log_temperature_reading" ∈ database_module_scope then Except.ok ()
  else Except.error PyError.nameError

/-- is_valid_reading (database.py lines 78-116).  prev_value may be
Python None (the default of prev_prev_value is None, and save_temperature
passes None when fewer records exist), hence the Option parameters. -/
def is_valid_reading (new_value : ℚ) (prev_value : Option ℚ)
    (prev_prev_value : Option ℚ := none)
    (threshold_percent : ℚ := 1/4) (min_temp : ℚ := 10) : Bool :=
  match prev_value with
  | none => true
  | some prev =>
    if prev = -999 then true
    else if new_value = -999 then true
    else if new_value < min_temp then false
    else
      let lower_bound := prev * (1 - threshold_percent)
      let upper_bound := prev * (1 + threshold_percent)
      if lower_bound ≤ new_value ∧ new_value ≤ upper_bound then true
      else
        match prev_prev_value with
        | some prev_prev =>
          if prev_prev ≠ -999 then
            let prev_trend := prev - prev_prev
            let current_trend := new_value - prev
            if (prev_trend > 0 ∧ current_trend > 0) ∨
               (prev_trend < 0 ∧ current_trend < 0) then true
            else false
          else false
        | none => false

/-- Everything save_temperature produces: the table after the call, the
record it created and committed, the outlier_filtered flag it computed,
and its Python outcome (normal return of the record, or a raised
exception). -/
structure SaveOutcome where
  db : List TemperatureRecord
  record : TemperatureRecord
  outlier_filtered : Bool
  result : Except PyError TemperatureRecord

/-- save_temperature (database.py lines 120-199).  The limit(2) query on
the store ordered newest-first yields the head record and, when present,
the second one; db.add plus db.commit prepend the new record.  After the
commit, line 179 calls log_temperature_reading, an unbound name (see
database_module_scope); the except block catches it, rolls back (a no-op
after the commit) and re-raises, so the committed record stays in the
table while the call raises. -/
def save_temperature (avg_temp1 avg_temp2 : ℚ)
    (apply_outlier_filter : Bool) (db : List TemperatureRecord) :
    SaveOutcome :=
  let step :=
    if apply_outlier_filter then
      match db with
      | [] => (avg_temp1, avg_temp2, false)
      | prev_record :: rest =>
        let prev_prev_record := rest.head?
        let prev_prev_temp1 := prev_prev_record.map TemperatureRecord.avg_temp1
        let s1 :=
          if ¬ is_valid_reading avg_temp1 (some prev_record.avg_temp1) prev_prev_temp1
          then (prev_record.avg_temp1, true)
          else (avg_temp1, false)
        let prev_prev_temp2 := prev_prev_record.map TemperatureRecord.avg_temp2
        let s2 :=
          if ¬ is_valid_reading avg_temp2 (some prev_record.avg_temp2) prev_prev_temp2
          then (prev_record.avg_temp2, true)
          else (avg_temp2, false)
        (s1.1, s2.1, s1.2 || s2.2)
    else (avg_temp1, avg_temp2, false)
  let record : TemperatureRecord := ⟨step.1, step.2.1⟩
  { db := record :: db
    record := record
    outlier_filtered := step.2.2
    result :=
      match log_temperature_reading_call with
      | Except.ok _ => Except.ok record
      | Except.error e => Except.error e }

/-- The validity decision save_temperature computes for sensor 1
(database.py lines 144-145); with an empty table no check runs and the
raw value is kept. -/
def sensor1_decision (avg_temp1 : ℚ) (db : List TemperatureRecord) : Bool :=
  match db with
  | [] => true
  | prev_record :: rest =>
    is_valid_reading avg_temp1 (some prev_record.avg_temp1)
      (rest.head?.map TemperatureRecord.avg_temp1)

/-- The validity decision save_temperature computes for sensor 2
(database.py lines 159-160). -/
def sensor2_decision (avg_temp2 : ℚ) (db : List TemperatureRecord) : Bool :=
  match db with
  | [] => true
  | prev_record :: rest =>
    is_valid_reading avg_temp2 (some prev_record.avg_temp2)
      (rest.head?.map TemperatureRecord.avg_temp2)

/-
Dynamic model for the ingestion path.  A Redis message is JSON, so a
field can hold a non-numeric value; Python then runs is_valid_reading
and save_temperature on whatever object arrived.  PyVal models the
dynamically typed values that flow through that path, and the py*
helpers model the Python operators used by database.py on them:
equality between a number and a string is False, while an order
comparison, a subtraction or a multiplication mixing a string with a
number raises TypeError.  The second operand of every such operation in
is_valid_reading is either a numeric literal or a previously obtained
number, which the helper signatures reflect.
-/

/-- A dynamically typed value arriving in a decoded message: a number,
or a non-numeric JSON value such as the string "bad". -/
inductive PyVal where
  | num (q : ℚ)
  | str (s : String)
deriving DecidableEq

/-- Python == between a message value and another value: values of
different types compare unequal without raising. -/
def pyEq : PyVal → PyVal → Bool
  | PyVal.num a, PyVal.num b => a = b
  | PyVal.str a, PyVal.str b => a = b
  | _, _ => false

/-- Python < between a message value and a number; a string operand
raises TypeError. -/
def pyLtNum : PyVal → ℚ → Except PyError Bool
  | PyVal.num a, b => Except.ok (decide (a < b))
  | PyVal.str _, _ => Except.error PyError.typeError

/-- Python <= between a number and a message value. -/
def pyNumLe : ℚ → PyVal → Except PyError Bool
  | a, PyVal.num b => Except.ok (decide (a ≤ b))
  | _, PyVal.str _ => Except.error PyError.typeError

/-- Python <= between a message value and a number. -/
def pyLeNum : PyVal → ℚ → Except PyError Bool
  | PyVal.num a, b => Except.ok (decide (a ≤ b))
  | PyVal.str _, _ => Except.error PyError.typeError

/-- Python * between a message value and a number. -/
def pyMulNum : PyVal → ℚ → Except PyError ℚ
  | PyVal.num a, b => Except.ok (a * b)
  | PyVal.str _, _ => Except.error PyError.typeError

/-- Python - between two message values. -/
def pySub : PyVal → PyVal → Except PyError ℚ
  | PyVal.num a, PyVal.num b => Except.ok (a - b)
  | _, _ => Except.error PyError.typeError

/-- is_valid_reading (database.py lines 78-116) run on dynamically typed
arguments, at the default threshold_percent = 0.25 and min_temp = 10.0.
The chained comparison of line 102 evaluates lower_bound <= new_value
first and new_value <= upper_bound only if the first holds. -/
def is_valid_reading_dyn (new_value : PyVal) (prev_value : Option PyVal)
    (prev_prev_value : Option PyVal) : Except PyError Bool :=
  match prev_value with
  | none => Except.ok true
  | some prev =>
    if pyEq prev (PyVal.num (-999)) then Except.ok true
    else if pyEq new_value (PyVal.num (-999)) then Except.ok true
    else do
      let below_min ← pyLtNum new_value 10
      if below_min then return false
      let lower_bound ← pyMulNum prev (1 - 1/4)
      let upper_bound ← pyMulNum prev (1 + 1/4)
      let in_band ←
        (do
          let left ← pyNumLe lower_bound new_value
          if left then pyLeNum new_value upper_bound
          else return false)
      if in_band then return true
      match prev_prev_value with
      | some prev_prev =>
        if ¬ pyEq prev_prev (PyVal.num (-999)) then do
          let prev_trend ← pySub prev prev_prev
          let current_trend ← pySub new_value prev
          if (prev_trend > 0 ∧ current_trend > 0) ∨
             (prev_trend < 0 ∧ current_trend < 0) then return true
          return false
        else return false
      | none => return false

/-- One row of temperature_records as SQLite actually stores it: the
column has REAL affinity but a non-numeric string is stored as-is, so a
stored sensor value is itself a dynamically typed value. -/
structure TempRecordDyn where
  avg_temp1 : PyVal
  avg_temp2 : PyVal
deriving DecidableEq

/-- save_temperature (database.py lines 120-199) on dynamically typed
inputs: any exception inside the try block before the commit is caught,
rolled back (the table is unchanged) and re-raised; when both filter
checks complete, the assembled record is committed and, as in
save_temperature above, line 179 then raises NameError, leaving the
committed record in place. -/
def save_temperature_dyn (avg_temp1 avg_temp2 : PyVal)
    (apply_outlier_filter : Bool) (db : List TempRecordDyn) :
    List TempRecordDyn × Except PyError TempRecordDyn :=
  let checked : Except PyError (PyVal × PyVal) :=
    if apply_outlier_filter then
      match db with
      | [] => Except.ok (avg_temp1, avg_temp2)
      | prev_record :: rest => do
        let prev_prev_record := rest.head?
        let valid1 ← is_valid_reading_dyn avg_temp1 (some prev_record.avg_temp1)
          (prev_prev_record.map TempRecordDyn.avg_temp1)
        let final_temp1 := if ¬ valid1 then prev_record.avg_temp1 else avg_temp1
        let valid2 ← is_valid_reading_dyn avg_temp2 (some prev_record.avg_temp2)
          (prev_prev_record.map TempRecordDyn.avg_temp2)
        let final_temp2 := if ¬ valid2 then prev_record.avg_temp2 else avg_temp2
        return (final_temp1, final_temp2)
    else Except.ok (avg_temp1, avg_temp2)
  match checked with
  | Except.error e => (db, Except.error e)
  | Except.ok (final_temp1, final_temp2) =>
    let record : TempRecordDyn := ⟨final_temp1, final_temp2⟩
    (record :: db,
      match log_temperature_reading_call with
      | Except.ok _ => Except.ok record
      | Except.error e => Except.error e)

/-- A decoded Redis message as on_message sees it (app.py line 34): a
dict from which data.get extracts the avg_temp1 and avg_temp2 fields,
none when the key is missing (or its JSON value is null). -/
structure RawMessage where
  avg_temp1 : Option PyVal
  avg_temp2 : Option PyVal
deriving DecidableEq

/-- on_message (app.py lines 34-67): if either field is missing nothing
is saved; otherwise save_temperature runs with the outlier filter on;
every exception is caught and logged inside on_message, returned here as
the second component for the observability theorems. -/
def on_message (data : RawMessage) (db : List TempRecordDyn) :
    List TempRecordDyn × Option PyError :=
  match data.avg_temp1, data.avg_temp2 with
  | some t1, some t2 =>
    match save_temperature_dyn t1 t2 true db with
    | (db2, Except.ok _) => (db2, none)
    | (db2, Except.error e) => (db2, some e)
  | _, _ => (db, none)

/-- One payload arriving on the channel: either undecodable JSON or a
decoded message. -/
inductive ChannelMessage where
  | invalid (raw : String)
  | valid (data : RawMessage)

/-- One iteration of RedisSubscriber listening
(redis_subscriber.py lines 120-157): a JSONDecodeError and every
exception escaping the callback are caught inside the loop body, so the
iteration always completes with the next table state. -/
def process_message (db : List TempRecordDyn) (msg : ChannelMessage) :
    List TempRecordDyn :=
  match msg with
  | ChannelMessage.invalid _ => db
  | ChannelMessage.valid data => (on_message data db).1

/-- The listening loop over a stream of messages: a fold of
process_message, since no per-message failure escapes the loop body. -/
def listen_loop (db : List TempRecordDyn) (msgs : List ChannelMessage) :
    List TempRecordDyn :=
  msgs.foldl process_message db

/-- SettingsStore state (models.py lines 9-48): the temp_threshold entry
of the in-memory settings dict (none when the key is absent), the
construction-time default, and the entry as last durably written
(settings.json). -/
structure SettingsStore where
  temp_threshold : Option ℚ
  default_threshold : ℚ
  disk : Option ℚ
deriving DecidableEq

/-- SettingsStore._save_settings (models.py lines 30-36): writes the
whole settings dict to the file; when the write fails the exception is
caught and only printed, so the caller continues and the in-memory dict
keeps its current contents.  write_succeeds says whether the underlying
file write succeeds. -/
def save_settings (store : SettingsStore) (write_succeeds : Bool) :
    SettingsStore :=
  if write_succeeds then { store with disk := store.temp_threshold }
  else store

/-- SettingsStore.get_threshold (models.py lines 38-41):
settings.get("temp_threshold", default). -/
def get_threshold (store : SettingsStore) : ℚ :=
  store.temp_threshold.getD store.default_threshold

/-- SettingsStore.set_threshold (models.py lines 43-48): under the lock,
first updates the in-memory dict, then calls _save_settings, then
returns the value — the memory update happens before and independently
of the durable write. -/
def set_threshold (store : SettingsStore) (value : ℚ)
    (write_succeeds : Bool) : SettingsStore × ℚ :=
  let store1 := { store with temp_threshold := some value }
  let store2 := save_settings store1 write_succeeds
  (store2, value)

/-
Helper lemmas shared by the claim theorems.
-/

/-- A sentinel new value is always accepted: either the previous value
offers no comparator, or the pass-through branch of line 90 fires. -/
lemma valid_of_sentinel_new (prev pp : Option ℚ) :
    is_valid_reading (-999) prev pp = true := by
  cases prev with
  | none => rfl
  | some p =>
    by_cases hp : p = -999 <;> simp [is_valid_reading, hp]

/-- The record save_temperature builds over an empty table is the raw
pair, with or without the filter. -/
lemma save_temperature_nil (t1 t2 : ℚ) (f : Bool) :
    (save_temperature t1 t2 f []).record = ⟨t1, t2⟩ := by
  cases f <;> simp [save_temperature]

/-- The record save_temperature builds over a nonempty table, filter
on: each component is the raw value when its check accepts and the
previous value when it rejects. -/
lemma save_temperature_cons_record (t1 t2 : ℚ) (prev : TemperatureRecord)
    (rest : List TemperatureRecord) :
    (save_temperature t1 t2 true (prev :: rest)).record =
      ⟨if is_valid_reading t1 (some prev.avg_temp1)
           (rest.head?.map TemperatureRecord.avg_temp1) then t1 else prev.avg_temp1,
       if is_valid_reading t2 (some prev.avg_temp2)
           (rest.head?.map TemperatureRecord.avg_temp2) then t2 else prev.avg_temp2⟩ := by
  simp only [save_temperature]
  cases hb1 : is_valid_reading t1 (some prev.avg_temp1)
      (rest.head?.map TemperatureRecord.avg_temp1) <;>
    cases hb2 : is_valid_reading t2 (some prev.avg_temp2)
        (rest.head?.map TemperatureRecord.avg_temp2) <;>
      simp [hb1, hb2]

/-- The outlier_filtered flag over a nonempty table, filter on: raised
exactly when at least one check rejects. -/
lemma save_temperature_cons_filtered (t1 t2 : ℚ) (prev : TemperatureRecord)
    (rest : List TemperatureRecord) :
    (save_temperature t1 t2 true (prev :: rest)).outlier_filtered =
      ((! is_valid_reading t1 (some prev.avg_temp1)
           (rest.head?.map TemperatureRecord.avg_temp1)) ||
       (! is_valid_reading t2 (some prev.avg_temp2)
           (rest.head?.map TemperatureRecord.avg_temp2))) := by
  simp only [save_temperature]
  cases hb1 : is_valid_reading t1 (some prev.avg_temp1)
      (rest.head?.map TemperatureRecord.avg_temp1) <;>
    cases hb2 : is_valid_reading t2 (some prev.avg_temp2)
        (rest.head?.map TemperatureRecord.avg_temp2) <;>
      simp [hb1, hb2]

/-- Equal images of the first element under f, given equal images of the
one-element prefixes. -/
lemma head_map_of_take_map (as bs : List TemperatureRecord)
    (f : TemperatureRecord → ℚ)
    (h : (as.take 1).map f = (bs.take 1).map f) :
    as.head?.map f = bs.head?.map f := by
  cases as <;> cases bs <;> simp_all

/-- Binding a raised exception short-circuits. -/
lemma except_error_bind {α β : Type} (e : PyError) (f : α → Except PyError β) :
    (Except.error e >>= f) = Except.error e := rfl

/-- Binding a normal result continues with it. -/
lemma except_ok_bind {α β : Type} (a : α) (f : α → Except PyError β) :
    (Except.ok a >>= f) = f a := rfl

/-- A non-numeric new value compared against a numeric, non-sentinel
previous value raises TypeError at the floor comparison of line 94. -/
lemma dyn_str_new_raises (s : String) (p : ℚ) (pp : Option PyVal)
    (hp : ¬ (p = -999)) :
    is_valid_reading_dyn (PyVal.str s) (some (PyVal.num p)) pp =
      Except.error PyError.typeError := by
  simp [is_valid_reading_dyn, pyEq, hp, pyLtNum, except_error_bind]

/-
Claim theorems.
-/

/-- C3: at the defaults, the reading 60 after history 100, 90 is outside
the band [67.5, 112.5] of 90 but continues the strictly falling trend,
so it is accepted; after history 100, 110 (rising) the same reading 60
is rejected. -/
theorem trend_exception :
    is_valid_reading 60 (some 90) (some 100) = true ∧
    is_valid_reading 60 (some 110) (some 100) = false := by
  constructor <;> norm_num [is_valid_reading]

/-- C5: a sentinel new value -999.0 is always accepted, a sentinel
previous value offers no comparator so 85.0 after -999.0 is accepted,
and the ingestion path stores the sentinel -999.0 unchanged for its
sensor whatever the table holds. -/
theorem sentinel_passthrough :
    (∀ (prev pp : Option ℚ), is_valid_reading (-999) prev pp = true) ∧
    is_valid_reading 85 (some (-999)) (some 80) = true ∧
    ∀ (t2 : ℚ) (db : List TemperatureRecord),
      (save_temperature (-999) t2 true db).record.avg_temp1 = -999 := by
  refine ⟨valid_of_sentinel_new, by norm_num [is_valid_reading], ?_⟩
  intro t2 db
  cases db with
  | nil => rfl
  | cons prev rest =>
    rw [save_temperature_cons_record, valid_of_sentinel_new]
    rfl

/-- C1 counterexample: prev_value = 12 lies in (10, ∞) and new_value = 9
satisfies the band condition, 9/12 - 1 having absolute value exactly
0.25, yet the filter rejects, because the hard floor check of line 94
runs before the band check and 9 < 10. -/
theorem band_acceptance_cex :
    (10:ℚ) < 12 ∧ |(9:ℚ) / 12 - 1| ≤ 1/4 ∧
    is_valid_reading 9 (some 12) none = false := by
  refine ⟨by norm_num, ?_, by norm_num [is_valid_reading]⟩
  rw [abs_le]
  constructor <;> norm_num

/-- C1 amended: for prev_value in (10, ∞) and new_value within the 25
percent band of it, the filter accepts at the defaults for every
prev_prev_value, provided new_value also clears the 10.0 floor (the
floor check runs first and can reject band-compliant readings when
prev_value is close to 10). -/
theorem band_acceptance (new_value prev : ℚ) (pp : Option ℚ)
    (hprev : 10 < prev) (hband : |new_value / prev - 1| ≤ 1/4)
    (hfloor : 10 ≤ new_value) :
    is_valid_reading new_value (some prev) pp = true := by
  have hp : (0:ℚ) < prev := by linarith
  have h1 : ¬ (prev = -999) := by intro h; rw [h] at hprev; norm_num at hprev
  have h2 : ¬ (new_value = -999) := by intro h; rw [h] at hfloor; norm_num at hfloor
  have h3 : ¬ (new_value < 10) := not_lt.mpr hfloor
  obtain ⟨hl, hr⟩ := abs_le.mp hband
  have hlow : prev * (1 - 1/4) ≤ new_value := by
    have hq : (3:ℚ)/4 ≤ new_value / prev := by linarith
    have := (le_div_iff₀ hp).mp hq
    linarith
  have hhigh : new_value ≤ prev * (1 + 1/4) := by
    have hq : new_value / prev ≤ 5/4 := by linarith
    have := (div_le_iff₀ hp).mp hq
    linarith
  simp only [is_valid_reading, if_neg h1, if_neg h2, if_neg h3]
  rw [if_pos ⟨hlow, hhigh⟩]

/-- C1 witness: 11 after 12 clears the floor and the band, and is
accepted. -/
theorem band_acceptance_witness :
    is_valid_reading 11 (some 12) none = true :=
  band_acceptance 11 12 none (by norm_num)
    (by rw [abs_le]; constructor <;> norm_num) (by norm_num)

/-- C2 counterexample: new_value = 5 is below the floor and is not the
sentinel, yet the filter accepts both when prev_value is absent and when
prev_value is the sentinel -999.0, because the no-comparator branch of
line 87 runs before the floor check. -/
theorem hard_floor_cex :
    (5:ℚ) < 10 ∧ (5:ℚ) ≠ -999 ∧
    is_valid_reading 5 none = true ∧
    is_valid_reading 5 (some (-999)) (some 80) = true := by
  refine ⟨by norm_num, by norm_num, rfl, by norm_num [is_valid_reading]⟩

/-- C2 amended: for new_value below the 10.0 floor and distinct from the
sentinel, the filter rejects for every present, non-sentinel prev_value
and every prev_prev_value; with prev_value absent or equal to -999.0
the reading is instead accepted unconditionally. -/
theorem hard_floor (new_value prev : ℚ) (pp : Option ℚ)
    (hlt : new_value < 10) (hnew : ¬ (new_value = -999))
    (hprev : ¬ (prev = -999)) :
    is_valid_reading new_value (some prev) pp = false := by
  simp only [is_valid_reading, if_neg hprev, if_neg hnew, if_pos hlt]

/-- C2 witness: 5 after 20 is rejected by the floor. -/
theorem hard_floor_witness : is_valid_reading 5 (some 20) none = false :=
  hard_floor 5 20 none (by norm_num) (by norm_num) (by norm_num)

/-- C4: over a nonempty table with the filter on, whenever the validity
check for a sensor rejects, the committed record carries the most recent
stored value for that sensor instead of the raw one, and the
outlier_filtered flag is raised. -/
theorem substitution_on_rejection (t1 t2 : ℚ) (prev : TemperatureRecord)
    (rest : List TemperatureRecord) :
    (is_valid_reading t1 (some prev.avg_temp1)
        (rest.head?.map TemperatureRecord.avg_temp1) = false →
      (save_temperature t1 t2 true (prev :: rest)).record.avg_temp1 = prev.avg_temp1 ∧
      (save_temperature t1 t2 true (prev :: rest)).outlier_filtered = true) ∧
    (is_valid_reading t2 (some prev.avg_temp2)
        (rest.head?.map TemperatureRecord.avg_temp2) = false →
      (save_temperature t1 t2 true (prev :: rest)).record.avg_temp2 = prev.avg_temp2 ∧
      (save_temperature t1 t2 true (prev :: rest)).outlier_filtered = true) := by
  refine ⟨fun h => ⟨?_, ?_⟩, fun h => ⟨?_, ?_⟩⟩
  · rw [save_temperature_cons_record, h]; rfl
  · rw [save_temperature_cons_filtered, h]; rfl
  · rw [save_temperature_cons_record, h]; rfl
  · rw [save_temperature_cons_filtered, h]; simp

/-- C4 witness: 5 after a table headed by the record (20, 20) is
rejected by the floor for sensor 1, the stored value is 20 and the flag
is raised. -/
theorem substitution_on_rejection_witness :
    (save_temperature 5 20 true [⟨20, 20⟩]).record.avg_temp1 = 20 ∧
    (save_temperature 5 20 true [⟨20, 20⟩]).outlier_filtered = true :=
  (substitution_on_rejection 5 20 ⟨20, 20⟩ []).1
    (by norm_num [is_valid_reading])

/-- C7: the claimed atomicity fails on the code.  Starting from a store
whose threshold is 200 in memory and on disk, set_threshold 300 with a
failing durable write still returns 300 and a subsequent get_threshold
returns 300, not the prior 200: models.py line 46 mutates the in-memory
dict before _save_settings runs and line 35 swallows the write
failure. -/
theorem threshold_failed_write_not_atomic :
    get_threshold ⟨some 200, 200, some 200⟩ = 200 ∧
    (set_threshold ⟨some 200, 200, some 200⟩ 300 false).2 = 300 ∧
    get_threshold (set_threshold ⟨some 200, 200, some 200⟩ 300 false).1 = 300 ∧
    (set_threshold ⟨some 200, 200, some 200⟩ 300 false).1.disk = some 200 :=
  ⟨rfl, rfl, rfl, rfl⟩

/-- C8: with succeeding durable writes, set_threshold returns its
argument, a get_threshold after it reads that value back, and after two
sequential sets get_threshold reads the second value. -/
theorem threshold_read_after_write :
    ∀ (store : SettingsStore) (v1 v2 : ℚ),
      (set_threshold store v1 true).2 = v1 ∧
      get_threshold (set_threshold store v1 true).1 = v1 ∧
      get_threshold (set_threshold (set_threshold store v1 true).1 v2 true).1 = v2 :=
  fun _ _ _ => ⟨rfl, rfl, rfl⟩

/-- C10: log_temperature_reading is not bound in the module scope of
database.py, so every save_temperature call raises NameError after the
commit: the result is the error, never a normal return, while the
committed record stays prepended to the table. -/
theorem save_temperature_raises_nameerror :
    "log_temperature_reading" ∉ database_module_scope ∧
    ∀ (t1 t2 : ℚ) (f : Bool) (db : List TemperatureRecord),
      (save_temperature t1 t2 f db).result = Except.error PyError.nameError ∧
      (save_temperature t1 t2 f db).db = (save_temperature t1 t2 f db).record :: db :=
  ⟨by decide, fun _ _ _ _ => ⟨rfl, rfl⟩⟩

/-- C9: the sensor 2 decision and the stored sensor 2 value depend only
on the new sensor 2 value and the sensor 2 components of the two most
recent records: two runs agreeing on those, with arbitrary sensor 1
inputs and histories, decide and store identically for sensor 2 — and
symmetrically for sensor 1. -/
theorem sensor_independence :
    ∀ (t1 t1a t2 t2a : ℚ) (db1 db2 : List TemperatureRecord),
      ((db1.take 2).map TemperatureRecord.avg_temp2 =
          (db2.take 2).map TemperatureRecord.avg_temp2 →
        sensor2_decision t2 db1 = sensor2_decision t2 db2 ∧
        (save_temperature t1 t2 true db1).record.avg_temp2 =
          (save_temperature t1a t2 true db2).record.avg_temp2) ∧
      ((db1.take 2).map TemperatureRecord.avg_temp1 =
          (db2.take 2).map TemperatureRecord.avg_temp1 →
        sensor1_decision t1 db1 = sensor1_decision t1 db2 ∧
        (save_temperature t1 t2 true db1).record.avg_temp1 =
          (save_temperature t1 t2a true db2).record.avg_temp1) := by
  intro t1 t1a t2 t2a db1 db2
  constructor
  · intro h
    cases db1 with
    | nil =>
      cases db2 with
      | nil => exact ⟨rfl, rfl⟩
      | cons b bs => simp [List.take] at h
    | cons a as =>
      cases db2 with
      | nil => simp [List.take] at h
      | cons b bs =>
        simp only [List.take, List.map] at h
        have hhead : a.avg_temp2 = b.avg_temp2 :=
          (List.cons.injEq _ _ _ _).mp h |>.1
        have htail := (List.cons.injEq _ _ _ _).mp h |>.2
        have hpp := head_map_of_take_map as bs TemperatureRecord.avg_temp2 htail
        constructor
        · simp only [sensor2_decision]
          rw [hhead, hpp]
        · rw [save_temperature_cons_record, save_temperature_cons_record]
          simp only
          rw [hhead, hpp]
  · intro h
    cases db1 with
    | nil =>
      cases db2 with
      | nil => exact ⟨rfl, rfl⟩
      | cons b bs => simp [List.take] at h
    | cons a as =>
      cases db2 with
      | nil => simp [List.take] at h
      | cons b bs =>
        simp only [List.take, List.map] at h
        have hhead : a.avg_temp1 = b.avg_temp1 :=
          (List.cons.injEq _ _ _ _).mp h |>.1
        have htail := (List.cons.injEq _ _ _ _).mp h |>.2
        have hpp := head_map_of_take_map as bs TemperatureRecord.avg_temp1 htail
        constructor
        · simp only [sensor1_decision]
          rw [hhead, hpp]
        · rw [save_temperature_cons_record, save_temperature_cons_record]
          simp only
          rw [hhead, hpp]

/-- C9 witness: two one-record histories agreeing on sensor 2 (value 2)
with different sensor 1 values (1 and 3) and different new sensor 1
values (0 and 5) decide and store identically for sensor 2. -/
theorem sensor_independence_witness :
    sensor2_decision 7 [⟨1, 2⟩] = sensor2_decision 7 [⟨3, 2⟩] ∧
    (save_temperature 0 7 true [⟨1, 2⟩]).record.avg_temp2 =
      (save_temperature 5 7 true [⟨3, 2⟩]).record.avg_temp2 :=
  (sensor_independence 0 5 7 7 [⟨1, 2⟩] [⟨3, 2⟩]).1 rfl

/-- C6 counterexample: the decoded message with the non-numeric
avg_temp1 "bad" and numeric avg_temp2 20, arriving over an empty table,
does persist a record — carrying the raw string — because on_message
only checks the fields against None and the empty table gives the filter
nothing to compare against, so the assembled record is committed before
the NameError of line 179 fires. -/
theorem malformed_discard_cex :
    listen_loop []
        [ChannelMessage.valid ⟨some (PyVal.str "bad"), some (PyVal.num 20)⟩] =
      [⟨PyVal.str "bad", PyVal.num 20⟩] := rfl

/-- C6 amended: a message with a missing (or null) field persists
nothing and raises nothing out of on_message; a message with a
non-numeric field arriving over a table whose most recent record is
numeric and non-sentinel on both sensors persists nothing (the
comparison raises TypeError, caught by on_message); and the listening
loop always continues with the next message whatever the current one
did. -/
theorem malformed_discard :
    (∀ (data : RawMessage) (db : List TempRecordDyn),
        data.avg_temp1 = none ∨ data.avg_temp2 = none →
        on_message data db = (db, none)) ∧
    (∀ (t1 t2 : PyVal) (p1 p2 : ℚ) (rest : List TempRecordDyn),
        ¬ (p1 = -999) → ¬ (p2 = -999) →
        ((∃ s, t1 = PyVal.str s) ∨ (∃ s, t2 = PyVal.str s)) →
        (on_message ⟨some t1, some t2⟩
            (⟨PyVal.num p1, PyVal.num p2⟩ :: rest)).1 =
          ⟨PyVal.num p1, PyVal.num p2⟩ :: rest) ∧
    (∀ (db : List TempRecordDyn) (msg : ChannelMessage)
        (msgs : List ChannelMessage),
        listen_loop db (msg :: msgs) = listen_loop (process_message db msg) msgs) := by
  refine ⟨?_, ?_, fun _ _ _ => rfl⟩
  · intro data db h
    rcases data with ⟨o1, o2⟩
    rcases h with h | h <;> simp only at h <;> subst h
    · cases o2 <;> rfl
    · cases o1 <;> rfl
  · intro t1 t2 p1 p2 rest hp1 hp2 hstr
    rcases hstr with ⟨s, hs⟩ | ⟨s, hs⟩
    · subst hs
      have h1 := dyn_str_new_raises s p1 (rest.head?.map TempRecordDyn.avg_temp1) hp1
      simp [on_message, save_temperature_dyn, h1, except_error_bind]
    · subst hs
      cases hv : is_valid_reading_dyn t1 (some (PyVal.num p1))
          (rest.head?.map TempRecordDyn.avg_temp1) with
      | error e =>
        simp [on_message, save_temperature_dyn, hv, except_error_bind]
      | ok v =>
        have h2 := dyn_str_new_raises s p2 (rest.head?.map TempRecordDyn.avg_temp2) hp2
        simp [on_message, save_temperature_dyn, hv, h2, except_ok_bind,
          except_error_bind]

/-- C6 witness: a message missing avg_temp1 over an empty table persists
nothing; the non-numeric "bad" over a table headed by the numeric record
(20, 20) persists nothing. -/
theorem malformed_discard_witness :
    on_message ⟨none, some (PyVal.num 20)⟩ [] = ([], none) ∧
    (on_message ⟨some (PyVal.str "bad"), some (PyVal.num 20)⟩
        [⟨PyVal.num 20, PyVal.num 20⟩]).1 = [⟨PyVal.num 20, PyVal.num 20⟩] :=
  ⟨malformed_discard.1 ⟨none, some (PyVal.num 20)⟩ [] (Or.inl rfl),
   malformed_discard.2.1 (PyVal.str "bad") (PyVal.num 20) 20 20 []
     (by norm_num) (by norm_num) (Or.inl ⟨"bad", rfl⟩)⟩

end TemperatureSensor
